import Mathlib

/-!
Shallow embedding of the exam-proctoring monitoring-session engine:
the session state machine, the violation/verification ledgers, the
risk-scoring and recommendation policy, and the name-reconciliation /
attendance-marking logic of the backend controllers
(`verificationController.js`, `examController.js`) together with the
`User`, `Exam` and `Attendance` schemas.

The `MonitoringSession` mongoose model file itself is absent from the
available sources (only its callers are); its instance methods
(`addViolation`, `addFaceVerification`, `calculateRiskScore`) are
modelled from the specification and marked as such in their doc
comments.  Everything else is translated directly from the controller
code.
-/

namespace ExamProctor

/-! ## String normalization and containment (JS `toLowerCase`, `trim`, `includes`) -/

/-- Whitespace characters removed by JS `String.prototype.trim` (the common ones). -/
def isWsChar (c : Char) : Bool :=
  c == ' ' || c == '\t' || c == '\n' || c == '\r'

/-- ASCII lower-casing of one character, as JS `toLowerCase` acts on ASCII. -/
def lowerChar (c : Char) : Char :=
  if 'A' ≤ c ∧ c ≤ 'Z' then Char.ofNat (c.toNat + 32) else c

/-- Trim leading and trailing whitespace from a character list (JS `trim`). -/
def trimChars (l : List Char) : List Char :=
  ((l.dropWhile isWsChar).reverse.dropWhile isWsChar).reverse

/-- Normalization used by the reconciliation code:
`(str) => str.toLowerCase().trim()`. -/
def normChars (s : String) : List Char :=
  trimChars (s.data.map lowerChar)

/-- Check that `needle` occurs at the start of `hay`. -/
def isPrefixChars : List Char → List Char → Bool
  | [], _ => true
  | _ :: _, [] => false
  | a :: as, b :: bs => a == b && isPrefixChars as bs

/-- Substring containment, JS `hay.includes(needle)`. -/
def containsChars (hay needle : List Char) : Bool :=
  if isPrefixChars needle hay then true
  else
    match hay with
    | [] => false
    | _ :: t => containsChars t needle

/-! ## Data model -/

/-- Monitoring-session status (`active | paused | completed | terminated`). -/
inductive SessionStatus
  | active
  | paused
  | completed
  | terminated
deriving DecidableEq, Repr

/-- A status is terminal when it is `completed` or `terminated`. -/
def SessionStatus.isTerminal : SessionStatus → Bool
  | .completed => true
  | .terminated => true
  | _ => false

/-- Violation severity levels. -/
inductive Severity
  | low
  | medium
  | high
  | critical
deriving DecidableEq, Repr

/-- One violation ledger entry. -/
structure Violation where
  vtype : String
  severity : Severity
  description : String
  evidence : String
  timestamp : Nat
deriving DecidableEq, Repr

/-- Outcome of one face-verification attempt. -/
inductive VerifResult
  | verified
  | failed
  | no_face
  | multiple_faces
  | no_reference
deriving DecidableEq, Repr

/-- One verification ledger entry. -/
structure VerificationRecord where
  timestamp : Nat
  result : VerifResult
  confidence : ℚ
  evidence : String
deriving DecidableEq, Repr

/-- The final report stored at session finalization. -/
structure FinalReport where
  totalViolations : Nat
  riskScore : Nat
  recommendation : String
  notes : String
deriving DecidableEq, Repr

/-- A monitoring session document. -/
structure Session where
  sessionId : String
  exam : Nat
  student : Nat
  status : SessionStatus
  startTime : Nat
  endTime : Option Nat
  faceVerifications : List VerificationRecord
  violations : List Violation
  isTerminated : Bool
  terminationReason : Option String
  finalReport : Option FinalReport
deriving DecidableEq, Repr

/-- A user document (the fields the controllers consult). -/
structure User where
  userId : Nat
  role : String
  verificationStatus : String
  faceData : Option String
deriving DecidableEq, Repr

/-- Exam status values. -/
inductive ExamStatus
  | scheduled
  | ongoing
  | completed
  | cancelled
deriving DecidableEq, Repr

/-- The exam settings consulted by `joinExam`. -/
structure ExamSettings where
  faceVerificationRequired : Bool
  tabSwitchLimit : Nat
deriving DecidableEq, Repr

/-- An exam document (the fields the controllers consult; `enrolledStudents`
holds the enrolled student ids). -/
structure Exam where
  examId : Nat
  examCode : String
  status : ExamStatus
  enrolledStudents : List Nat
  examSettings : ExamSettings
deriving DecidableEq, Repr

/-! ## MonitoringSession instance methods (spec-modelled: the model file is
absent from the available sources) -/

/-- Modelled from the spec: `addViolation` lives in the absent
`MonitoringSession` model file.  Section 4.1 states `AppendViolation`
fails with a `SessionClosed` error when the session status is terminal
and otherwise appends to the append-only `violations` ledger. -/
def Session.addViolation (s : Session) (v : Violation) : Except String Session :=
  if s.status.isTerminal then .error "SessionClosed"
  else .ok { s with violations := s.violations ++ [v] }

/-- Modelled from the spec: `addFaceVerification` lives in the absent
`MonitoringSession` model file.  Section 4.1 states `AppendVerification`
fails with a `SessionClosed` error when the session status is terminal
and otherwise appends to the append-only `verifications` ledger. -/
def Session.addFaceVerification (s : Session) (r : VerificationRecord) :
    Except String Session :=
  if s.status.isTerminal then .error "SessionClosed"
  else .ok { s with faceVerifications := s.faceVerifications ++ [r] }

/-- Per-violation weight of the scoring policy default of section 4.3. -/
def severityWeight : Severity → Nat
  | .low => 5
  | .medium => 15
  | .high => 30
  | .critical => 50

/-- Modelled from the spec: `calculateRiskScore` lives in the absent
`MonitoringSession` model file.  Section 4.3 proposes the default
`low=5, medium=15, high=30, critical=50` points per violation, capped at
100, plus a penalty for any `failed`/`multiple_faces` verification result
(taken here as 10 points per such result); a pure function of the ledgers. -/
def Session.calculateRiskScore (s : Session) : Nat :=
  min 100 (s.violations.foldl (fun acc v => acc + severityWeight v.severity) 0)
    + 10 * (s.faceVerifications.filter
        (fun r => r.result == VerifResult.failed
          || r.result == VerifResult.multiple_faces)).length

/-! ## Session lifecycle controllers (`verificationController.js`) -/

/-- Recommendation banding of `endMonitoringSession`
(`verificationController.js` lines 519-521): start from `accept`,
overwrite with `reject` when the score exceeds 70, else with `review`
when it exceeds 40. -/
def recommendationFor (riskScore : Nat) : String :=
  if riskScore > 70 then "reject"
  else if riskScore > 40 then "review"
  else "accept"

/-- The `endMonitoringSession` controller (Finalize), lines 490-546:
404 and 403 paths are handled by the caller having found the owned
session; here the session is finalized unless it is already ended.
Returns the updated session to be saved, or the error message of the 400
response (no save happens then). -/
def endMonitoringSession (s : Session) (now : Nat) : Except String Session :=
  if s.status = .completed ∨ s.status = .terminated then
    .error "Session is already ended"
  else
    let riskScore := s.calculateRiskScore
    let n := s.violations.length
    .ok { s with
      status := .completed
      endTime := some now
      finalReport := some {
        totalViolations := n
        riskScore := riskScore
        recommendation := recommendationFor riskScore
        notes := "Session completed with " ++ toString n ++ " violations" } }

/-- The session state as persisted after an `endMonitoringSession` call:
on the error path the controller returns before `session.save()`, so the
stored document is unchanged. -/
def endApplied (s : Session) (now : Nat) : Session :=
  match endMonitoringSession s now with
  | .ok s2 => s2
  | .error _ => s

/-- The session state as persisted after an `addViolation` call that may
be rejected: a rejected append writes nothing. -/
def tryAddViolation (s : Session) (v : Violation) : Session :=
  match s.addViolation v with
  | .ok s2 => s2
  | .error _ => s

/-- The session state as persisted after an `addFaceVerification` call
that may be rejected: a rejected append writes nothing. -/
def tryAddFaceVerification (s : Session) (r : VerificationRecord) : Session :=
  match s.addFaceVerification r with
  | .ok s2 => s2
  | .error _ => s

/-- JS `reason || "Session terminated"`: `undefined` and the empty string
are falsy and fall back to the default. -/
def reasonOrDefault (reason : Option String) : String :=
  match reason with
  | some r => if r = "" then "Session terminated" else r
  | none => "Session terminated"

/-- The `updateSessionStatus` controller (SetStatus), lines 551-601:
after the permission check the requested status is assigned
unconditionally (there is no check of the current status); `terminated`
additionally sets `isTerminated`, `terminationReason` (with the default
when no reason is supplied) and `endTime`; `completed` sets `endTime`.
Returns the HTTP status code paired with the session as saved. -/
def updateSessionStatus (s : Session) (user : User) (status : SessionStatus)
    (reason : Option String) (now : Nat) : Nat × Session :=
  if s.student = user.userId ∨ user.role = "admin" ∨ user.role = "invigilator" then
    let s1 := { s with status := status }
    let s2 :=
      if status = .terminated then
        { s1 with
          isTerminated := true
          terminationReason := some (reasonOrDefault reason)
          endTime := some now }
      else if status = .completed then
        { s1 with endTime := some now }
      else s1
    (200, s2)
  else (403, s)

/-! ## StartOrResume: `startMonitoringSession` and `joinExam` -/

/-- The duplicate-session lookup shared by `startMonitoringSession` and
`joinExam`: the first stored session for this (exam, student) whose
status is `active` or `paused`. -/
def findExistingSession (db : List Session) (examId userId : Nat) : Option Session :=
  db.find? (fun s =>
    s.exam == examId && s.student == userId
      && (s.status == SessionStatus.active || s.status == SessionStatus.paused))

/-- A freshly created monitoring session: empty ledgers, status `active`
(explicit in `startMonitoringSession`; in `joinExam` the status field is
omitted and the schema default applies — modelled from the spec, section
4.1: initial state on creation is `active`). -/
def newSession (examId userId : Nat) (freshId : String) (now : Nat) : Session where
  sessionId := freshId
  exam := examId
  student := userId
  status := .active
  startTime := now
  endTime := none
  faceVerifications := []
  violations := []
  isTerminated := false
  terminationReason := none
  finalReport := none

/-- Result of a StartOrResume controller call: HTTP status code, the
success flag, the session database after the call, and the session
returned in the response body. -/
structure StartResult where
  statusCode : Nat
  success : Bool
  db : List Session
  session : Option Session
deriving DecidableEq, Repr

/-- The `startMonitoringSession` controller, lines 417-485: 404 when the
exam is unknown, 400 when it is not ongoing, 403 when the student is not
enrolled; an existing `active`/`paused` session is returned as a 200
success with the database untouched; otherwise a new session is created
(201). -/
def startMonitoringSession (examLookup : Option Exam) (userId : Nat)
    (db : List Session) (freshId : String) (now : Nat) : StartResult :=
  match examLookup with
  | none => ⟨404, false, db, none⟩
  | some exam =>
    if exam.status ≠ .ongoing then ⟨400, false, db, none⟩
    else if ¬ exam.enrolledStudents.contains userId then ⟨403, false, db, none⟩
    else
      match findExistingSession db exam.examId userId with
      | some s => ⟨200, true, db, some s⟩
      | none =>
        let s := newSession exam.examId userId freshId now
        ⟨201, true, db ++ [s], some s⟩

/-- The `joinExam` controller (`examController.js` lines 483-561): 404
when the exam code is unknown, 403 when not enrolled, 400 when the exam
is not ongoing, 400 when face verification is required and the student's
`verificationStatus` is not `"verified"`; an existing `active`/`paused`
session is a 200 rejoin with the database untouched; otherwise a new
session is created (200). -/
def joinExam (examLookup : Option Exam) (user : User)
    (db : List Session) (freshId : String) (now : Nat) : StartResult :=
  match examLookup with
  | none => ⟨404, false, db, none⟩
  | some exam =>
    if ¬ exam.enrolledStudents.contains user.userId then ⟨403, false, db, none⟩
    else if exam.status ≠ .ongoing then ⟨400, false, db, none⟩
    else if exam.examSettings.faceVerificationRequired
        && user.verificationStatus != "verified" then ⟨400, false, db, none⟩
    else
      match findExistingSession db exam.examId user.userId with
      | some s => ⟨200, true, db, some s⟩
      | none =>
        let s := newSession exam.examId user.userId freshId now
        ⟨200, true, db ++ [s], some s⟩

/-! ## Face verification during an exam (`verifyFace`, lines 41-135) -/

/-- Outcome of the injected face-detection capability
(`detectFaces`; mocked in the source with randomness, treated here as an
opaque capability outcome per section 6). -/
structure FaceDetection where
  faceCount : Nat
  hasFace : Bool
  multipleFaces : Bool
deriving DecidableEq, Repr

/-- Outcome of the injected face-comparison capability (`compareFaces`). -/
structure FaceComparison where
  confidence : ℚ
  isMatch : Bool
deriving DecidableEq, Repr

/-- Evidence stored with a ledger entry: the truncated image,
`image.substring(0, 100) + "..."`. -/
def truncEvidence (image : String) : String :=
  String.mk (image.data.take 100) ++ "..."

/-- Result of a `verifyFace` call: HTTP status code, success flag, the
session as persisted, and the result/confidence of the response body. -/
structure VerifyFaceResult where
  statusCode : Nat
  success : Bool
  session : Session
  result : VerifResult
  confidence : ℚ
deriving DecidableEq, Repr

/-- The `verifyFace` controller, lines 41-135, after the session was
found: 403 unless the requester owns the session; then the verification
record is built from the detection outcome (`no_face`, `multiple_faces`
with a correlated high violation, comparison against the stored
descriptor with a correlated critical violation on mismatch, or
`no_reference` when the student has no stored `faceData`), appended to
the ledger, and reported as a 200 success; a rejected ledger append is
caught and reported as a 500 with nothing persisted. -/
def verifyFace (s : Session) (user : User) (det : FaceDetection)
    (cmp : FaceComparison) (image : String) (now : Nat) : VerifyFaceResult :=
  if s.student ≠ user.userId then ⟨403, false, s, .failed, 0⟩
  else
    let step : Except String (Session × VerificationRecord) :=
      if !det.hasFace then
        .ok (s, ⟨now, .no_face, 0, truncEvidence image⟩)
      else if det.multipleFaces then
        (s.addViolation
            ⟨"multiple_faces", .high, "Multiple faces detected in frame",
              truncEvidence image, now⟩).map
          (fun s2 => (s2, ⟨now, .multiple_faces, 0, truncEvidence image⟩))
      else
        match user.faceData with
        | some _ =>
          if cmp.isMatch then
            .ok (s, ⟨now, .verified, cmp.confidence, truncEvidence image⟩)
          else
            (s.addViolation
                ⟨"unauthorized_person", .critical,
                  "Face verification failed - potential impersonation",
                  truncEvidence image, now⟩).map
              (fun s2 => (s2, ⟨now, .failed, cmp.confidence, truncEvidence image⟩))
        | none =>
          .ok (s, ⟨now, .no_reference, 0, truncEvidence image⟩)
    match step with
    | .error _ => ⟨500, false, s, .failed, 0⟩
    | .ok (s2, rec) =>
      match s2.addFaceVerification rec with
      | .error _ => ⟨500, false, s, .failed, 0⟩
      | .ok s3 => ⟨200, true, s3, rec.result, rec.confidence⟩

/-! ## Attendance records and name reconciliation (`examController.js`) -/

/-- Attendance mark, the `attendanceMark` enum of the attendance schema. -/
inductive Mark
  | Present
  | Absent
deriving DecidableEq, Repr

/-- One attendance record, scoped to the (sessionKey, date) the
controllers query by, with the populated student fields the matcher
reads. -/
structure AttendanceRecord where
  student : Nat
  firstName : String
  lastName : String
  attendanceMark : Mark
  markedAt : Option Nat
deriving DecidableEq, Repr

/-- The full name assembled by the matcher:
`` `${record.student.firstName} ${record.student.lastName}` ``. -/
def fullNameOf (r : AttendanceRecord) : String :=
  r.firstName ++ " " ++ r.lastName

/-- The ungated match test of `verifyAttendanceWithAI`, lines 713-715:
normalized equality, or the normalized roster name contains the
normalized label, or the normalized label contains the normalized roster
name. -/
def nameMatches (aiName fullName : String) : Bool :=
  normChars fullName == normChars aiName
    || containsChars (normChars fullName) (normChars aiName)
    || containsChars (normChars aiName) (normChars fullName)

/-- The length-gated match test of `hybridAttendanceVerification`, lines
957-959: normalized equality with no length requirement; each
containment branch additionally requires the contained (raw) string's
length to exceed 2. -/
def hybridMatches (aiName fullName : String) : Bool :=
  normChars fullName == normChars aiName
    || (containsChars (normChars fullName) (normChars aiName)
          && aiName.data.length > 2)
    || (containsChars (normChars aiName) (normChars fullName)
          && fullName.data.length > 2)

/-- Verdict of reconciling one reported label. -/
inductive Verdict
  | matched (fullName : String)
  | notFound
deriving DecidableEq, Repr

/-- First roster record, in iteration order, matching a reported label
(the inner `for` loop of `verifyAttendanceWithAI` with its `break`). -/
def reconcileLabel (records : List AttendanceRecord) (aiName : String) :
    Option AttendanceRecord :=
  records.find? (fun r => nameMatches aiName (fullNameOf r))

/-- The matchLog entry for one reported label: `Matched` with the first
satisfying roster full name, or `NotFound`. -/
def verdictOf (records : List AttendanceRecord) (aiName : String) : Verdict :=
  match reconcileLabel records aiName with
  | some r => .matched (fullNameOf r)
  | none => .notFound

/-- The `presentStudentIds` accumulated over a batch of reported labels. -/
def collectPresentIds (records : List AttendanceRecord) (labels : List String) :
    List Nat :=
  labels.filterMap (fun l => (reconcileLabel records l).map (fun r => r.student))

/-- The `updateMany` of the attendance controllers applied to one record:
only records still `Absent` whose student id is in the present list are
set to `Present` with `markedAt = now`; every other record is untouched. -/
def markPresent (presentIds : List Nat) (now : Nat) (r : AttendanceRecord) :
    AttendanceRecord :=
  if r.attendanceMark == Mark.Absent && presentIds.contains r.student then
    { r with attendanceMark := .Present, markedAt := some now }
  else r

/-- The `updateAttendanceByAI` controller, lines 624-665, restricted to
the queried (session, date) scope: the bulk update over the records. -/
def updateAttendanceByAI (records : List AttendanceRecord)
    (presentStudentIds : List Nat) (now : Nat) : List AttendanceRecord :=
  records.map (markPresent presentStudentIds now)

/-- The `verifyAttendanceWithAI` controller, lines 671-782, restricted to
the queried (session, date) scope: reconcile every reported label against
the records, then bulk-update the matched students still `Absent`. -/
def verifyAttendanceWithAI (records : List AttendanceRecord)
    (labels : List String) (now : Nat) : List AttendanceRecord :=
  records.map (markPresent (collectPresentIds records labels) now)

/-! ## Theorems -/

/-- Banding of the recommendation computed at lines 519-521. -/
theorem recommendationFor_bands (n : Nat) :
    (n > 70 → recommendationFor n = "reject") ∧
    (40 < n ∧ n ≤ 70 → recommendationFor n = "review") ∧
    (n ≤ 40 → recommendationFor n = "accept") := by
  unfold recommendationFor
  refine ⟨fun h => ?_, fun h => ?_, fun h => ?_⟩
  · rw [if_pos h]
  · rw [if_neg (by omega), if_pos h.1]
  · rw [if_neg (by omega), if_neg (by omega)]

/-- C1: for every finalized session, the recommendation in the final
report is determined from the risk score by exactly the three bands:
`riskScore > 70 → reject`, `40 < riskScore ≤ 70 → review`,
`riskScore ≤ 40 → accept`. -/
theorem finalize_recommendation_bands (s : Session) (now : Nat)
    (h : s.status = .active ∨ s.status = .paused) :
    ∃ r : FinalReport, (endApplied s now).finalReport = some r ∧
      (r.riskScore > 70 → r.recommendation = "reject") ∧
      (40 < r.riskScore ∧ r.riskScore ≤ 70 → r.recommendation = "review") ∧
      (r.riskScore ≤ 40 → r.recommendation = "accept") := by
  have hne : ¬ (s.status = .completed ∨ s.status = .terminated) := by
    rcases h with h | h <;> rw [h] <;> rintro (h' | h') <;> exact absurd h' (by simp)
  unfold endApplied endMonitoringSession
  rw [if_neg hne]
  exact ⟨_, rfl, recommendationFor_bands _⟩

/-- Witness for C1: the scenario session with two critical violations
finalizes to risk score 100 and recommendation `reject`. -/
theorem finalize_recommendation_bands_witness :
    ∃ r : FinalReport,
      (endApplied
        { sessionId := "s1", exam := 1, student := 1, status := .active,
          startTime := 0, endTime := none, faceVerifications := [],
          violations :=
            [⟨"tab_switch", .critical, "c1", "e1", 1⟩,
             ⟨"tab_switch", .critical, "c2", "e2", 2⟩],
          isTerminated := false, terminationReason := none,
          finalReport := none } 10).finalReport = some r ∧
      (r.riskScore > 70 → r.recommendation = "reject") ∧
      (40 < r.riskScore ∧ r.riskScore ≤ 70 → r.recommendation = "review") ∧
      (r.riskScore ≤ 40 → r.recommendation = "accept") :=
  finalize_recommendation_bands _ 10 (Or.inl rfl)

/-- C6: Finalize succeeds exactly from `active`/`paused`, storing a
final report whose `totalViolations` is the length of the violations
ledger and setting status `completed` with `endTime`; on a session
already `completed` or `terminated` it returns the error response before
saving, so the persisted session — its final report included — is
unchanged. -/
theorem finalize_once_and_terminal_noop (s : Session) (now : Nat) :
    ((s.status = .active ∨ s.status = .paused) →
      ∃ s2, endMonitoringSession s now = .ok s2 ∧
        s2.status = .completed ∧ s2.endTime = some now ∧
        ∃ r : FinalReport, s2.finalReport = some r ∧
          r.totalViolations = s.violations.length) ∧
    ((s.status = .completed ∨ s.status = .terminated) →
      (∃ e, endMonitoringSession s now = .error e) ∧ endApplied s now = s) := by
  constructor
  · intro h
    have hne : ¬ (s.status = .completed ∨ s.status = .terminated) := by
      rcases h with h | h <;> rw [h] <;> rintro (h' | h') <;> exact absurd h' (by simp)
    unfold endMonitoringSession
    rw [if_neg hne]
    exact ⟨_, rfl, rfl, rfl, _, rfl, rfl⟩
  · intro h
    unfold endApplied endMonitoringSession
    rw [if_pos h]
    exact ⟨⟨_, rfl⟩, rfl⟩

/-- Witness for C6: a paused session with one violation finalizes with
`totalViolations = 1`; a terminated session with a stored report is left
untouched by a second Finalize. -/
theorem finalize_once_and_terminal_noop_witness :
    (∃ s2, endMonitoringSession
        { sessionId := "s6", exam := 1, student := 1, status := .paused,
          startTime := 0, endTime := none, faceVerifications := [],
          violations := [⟨"tab_switch", .low, "d", "e", 1⟩],
          isTerminated := false, terminationReason := none,
          finalReport := none } 9 = .ok s2 ∧
      s2.status = .completed ∧ s2.endTime = some 9 ∧
      ∃ r : FinalReport, s2.finalReport = some r ∧
        r.totalViolations =
          [(⟨"tab_switch", .low, "d", "e", 1⟩ : Violation)].length) ∧
    ((∃ e, endMonitoringSession
        { sessionId := "s6b", exam := 1, student := 1, status := .terminated,
          startTime := 0, endTime := some 3, faceVerifications := [],
          violations := [], isTerminated := true,
          terminationReason := some "left",
          finalReport := some ⟨0, 0, "accept", "n"⟩ } 9 = .error e) ∧
      endApplied
          { sessionId := "s6b", exam := 1, student := 1, status := .terminated,
            startTime := 0, endTime := some 3, faceVerifications := [],
            violations := [], isTerminated := true,
            terminationReason := some "left",
            finalReport := some ⟨0, 0, "accept", "n"⟩ } 9 =
        { sessionId := "s6b", exam := 1, student := 1, status := .terminated,
          startTime := 0, endTime := some 3, faceVerifications := [],
          violations := [], isTerminated := true,
          terminationReason := some "left",
          finalReport := some ⟨0, 0, "accept", "n"⟩ }) :=
  ⟨(finalize_once_and_terminal_noop _ 9).1 (Or.inr rfl),
   (finalize_once_and_terminal_noop _ 9).2 (Or.inr rfl)⟩

/-- C2 (counterexample): the claim that on a terminal session every
`SetStatus` to a non-terminal state fails and leaves the session
unchanged is false: `updateSessionStatus` performs no terminal-state
check, so moving a `completed` session back to `active` succeeds (HTTP
200) and mutates the stored status. -/
theorem setStatus_terminal_not_immutable :
    ({ sessionId := "s2", exam := 1, student := 7, status := .completed,
       startTime := 0, endTime := some 4, faceVerifications := [],
       violations := [], isTerminated := false, terminationReason := none,
       finalReport := some ⟨0, 0, "accept", "n"⟩ } : Session).status =
      SessionStatus.completed ∧
    (updateSessionStatus
        { sessionId := "s2", exam := 1, student := 7, status := .completed,
          startTime := 0, endTime := some 4, faceVerifications := [],
          violations := [], isTerminated := false, terminationReason := none,
          finalReport := some ⟨0, 0, "accept", "n"⟩ }
        { userId := 7, role := "student", verificationStatus := "verified",
          faceData := none }
        SessionStatus.active none 5).1 = 200 ∧
    (updateSessionStatus
        { sessionId := "s2", exam := 1, student := 7, status := .completed,
          startTime := 0, endTime := some 4, faceVerifications := [],
          violations := [], isTerminated := false, terminationReason := none,
          finalReport := some ⟨0, 0, "accept", "n"⟩ }
        { userId := 7, role := "student", verificationStatus := "verified",
          faceData := none }
        SessionStatus.active none 5).2.status = SessionStatus.active := by
  refine ⟨rfl, ?_, ?_⟩ <;> decide

/-- C2 (amended): on a terminal session the ledger appends
`addViolation` and `addFaceVerification` fail with the `SessionClosed`
error and persist nothing, but `SetStatus` enforces no terminal
immutability: an owner's `SetStatus` to `active` succeeds (HTTP 200) and
changes the stored status. -/
theorem terminal_appends_fail_but_setStatus_succeeds
    (s : Session) (user : User) (v : Violation) (rec : VerificationRecord)
    (reason : Option String) (now : Nat)
    (hterm : s.status = .completed ∨ s.status = .terminated) :
    s.addViolation v = .error "SessionClosed" ∧
    tryAddViolation s v = s ∧
    s.addFaceVerification rec = .error "SessionClosed" ∧
    tryAddFaceVerification s rec = s ∧
    (s.student = user.userId →
      (updateSessionStatus s user .active reason now).1 = 200 ∧
      (updateSessionStatus s user .active reason now).2.status = .active) := by
  have ht : s.status.isTerminal = true := by
    rcases hterm with h | h <;> rw [h] <;> rfl
  have hv : s.addViolation v = .error "SessionClosed" := by
    unfold Session.addViolation; rw [if_pos ht]
  have hf : s.addFaceVerification rec = .error "SessionClosed" := by
    unfold Session.addFaceVerification; rw [if_pos ht]
  refine ⟨hv, ?_, hf, ?_, fun hown => ?_⟩
  · unfold tryAddViolation; rw [hv]
  · unfold tryAddFaceVerification; rw [hf]
  · unfold updateSessionStatus
    rw [if_pos (Or.inl hown)]
    exact ⟨rfl, rfl⟩

/-- Witness for the amended C2 at a concrete terminated session. -/
theorem terminal_appends_fail_but_setStatus_succeeds_witness :
    ({ sessionId := "s2w", exam := 1, student := 7, status := .terminated,
       startTime := 0, endTime := some 4, faceVerifications := [],
       violations := [], isTerminated := true,
       terminationReason := some "left", finalReport := none } :
        Session).addViolation ⟨"tab_switch", .low, "d", "e", 5⟩ =
      .error "SessionClosed" ∧
    tryAddViolation
      { sessionId := "s2w", exam := 1, student := 7, status := .terminated,
        startTime := 0, endTime := some 4, faceVerifications := [],
        violations := [], isTerminated := true,
        terminationReason := some "left", finalReport := none }
      ⟨"tab_switch", .low, "d", "e", 5⟩ =
      { sessionId := "s2w", exam := 1, student := 7, status := .terminated,
        startTime := 0, endTime := some 4, faceVerifications := [],
        violations := [], isTerminated := true,
        terminationReason := some "left", finalReport := none } ∧
    ({ sessionId := "s2w", exam := 1, student := 7, status := .terminated,
       startTime := 0, endTime := some 4, faceVerifications := [],
       violations := [], isTerminated := true,
       terminationReason := some "left", finalReport := none } :
        Session).addFaceVerification ⟨5, .verified, 1, "e"⟩ =
      .error "SessionClosed" ∧
    tryAddFaceVerification
      { sessionId := "s2w", exam := 1, student := 7, status := .terminated,
        startTime := 0, endTime := some 4, faceVerifications := [],
        violations := [], isTerminated := true,
        terminationReason := some "left", finalReport := none }
      ⟨5, .verified, 1, "e"⟩ =
      { sessionId := "s2w", exam := 1, student := 7, status := .terminated,
        startTime := 0, endTime := some 4, faceVerifications := [],
        violations := [], isTerminated := true,
        terminationReason := some "left", finalReport := none } ∧
    (({ sessionId := "s2w", exam := 1, student := 7, status := .terminated,
        startTime := 0, endTime := some 4, faceVerifications := [],
        violations := [], isTerminated := true,
        terminationReason := some "left", finalReport := none } :
          Session).student =
        ({ userId := 7, role := "student", verificationStatus := "verified",
           faceData := none } : User).userId →
      (updateSessionStatus
          { sessionId := "s2w", exam := 1, student := 7, status := .terminated,
            startTime := 0, endTime := some 4, faceVerifications := [],
            violations := [], isTerminated := true,
            terminationReason := some "left", finalReport := none }
          { userId := 7, role := "student", verificationStatus := "verified",
            faceData := none }
          .active none 9).1 = 200 ∧
      (updateSessionStatus
          { sessionId := "s2w", exam := 1, student := 7, status := .terminated,
            startTime := 0, endTime := some 4, faceVerifications := [],
            violations := [], isTerminated := true,
            terminationReason := some "left", finalReport := none }
          { userId := 7, role := "student", verificationStatus := "verified",
            faceData := none }
          .active none 9).2.status = .active) :=
  terminal_appends_fail_but_setStatus_succeeds _ _ _ _ none 9 (Or.inr rfl)

/-- C7 (counterexample): the claim that a `SetStatus` to `terminated` is
accepted only when a termination reason is supplied is false: an owner's
transition with no reason succeeds (HTTP 200) and stores the default
text `"Session terminated"`. -/
theorem terminate_without_reason_accepted :
    (updateSessionStatus
        { sessionId := "s7", exam := 1, student := 7, status := .active,
          startTime := 0, endTime := none, faceVerifications := [],
          violations := [], isTerminated := false, terminationReason := none,
          finalReport := none }
        { userId := 7, role := "student", verificationStatus := "verified",
          faceData := none }
        SessionStatus.terminated none 5).1 = 200 ∧
    (updateSessionStatus
        { sessionId := "s7", exam := 1, student := 7, status := .active,
          startTime := 0, endTime := none, faceVerifications := [],
          violations := [], isTerminated := false, terminationReason := none,
          finalReport := none }
        { userId := 7, role := "student", verificationStatus := "verified",
          faceData := none }
        SessionStatus.terminated none 5).2.status =
      SessionStatus.terminated ∧
    (updateSessionStatus
        { sessionId := "s7", exam := 1, student := 7, status := .active,
          startTime := 0, endTime := none, faceVerifications := [],
          violations := [], isTerminated := false, terminationReason := none,
          finalReport := none }
        { userId := 7, role := "student", verificationStatus := "verified",
          faceData := none }
        SessionStatus.terminated none 5).2.terminationReason =
      some "Session terminated" := by
  refine ⟨?_, ?_, ?_⟩ <;> decide

/-- C7 (amended): a `SetStatus` to `terminated` is accepted whether or
not a reason is supplied; on success it sets `isTerminated`, sets
`endTime`, and stores the supplied reason as `terminationReason` when one
is given (non-empty), falling back to the default `"Session terminated"`
when the reason is absent or empty; a `SetStatus` to `completed` sets
`endTime`. -/
theorem terminate_sets_flags_and_reason
    (s : Session) (user : User) (reason : Option String) (now : Nat)
    (hperm : s.student = user.userId ∨ user.role = "admin" ∨
      user.role = "invigilator") :
    (updateSessionStatus s user .terminated reason now).1 = 200 ∧
    (updateSessionStatus s user .terminated reason now).2.isTerminated = true ∧
    (updateSessionStatus s user .terminated reason now).2.endTime = some now ∧
    (updateSessionStatus s user .terminated reason now).2.terminationReason =
      some (reasonOrDefault reason) ∧
    (∀ r : String, r ≠ "" → reason = some r →
      (updateSessionStatus s user .terminated reason now).2.terminationReason =
        some r) ∧
    (updateSessionStatus s user .completed reason now).2.endTime = some now := by
  have h1 : updateSessionStatus s user .terminated reason now =
      (200,
        { s with
            status := .terminated
            isTerminated := true
            terminationReason := some (reasonOrDefault reason)
            endTime := some now }) := by
    unfold updateSessionStatus
    rw [if_pos hperm]
    rfl
  have h2 : updateSessionStatus s user .completed reason now =
      (200, { s with status := .completed, endTime := some now }) := by
    unfold updateSessionStatus
    rw [if_pos hperm]
    rfl
  refine ⟨?_, ?_, ?_, ?_, fun r hr hreq => ?_, ?_⟩ <;>
    simp only [h1, h2]
  · simp [reasonOrDefault, hreq, hr]

/-- Witness for the amended C7: an invigilator terminates an active
session with an explicit reason. -/
theorem terminate_sets_flags_and_reason_witness :
    (updateSessionStatus
        { sessionId := "s7w", exam := 1, student := 7, status := .active,
          startTime := 0, endTime := none, faceVerifications := [],
          violations := [], isTerminated := false, terminationReason := none,
          finalReport := none }
        { userId := 9, role := "invigilator", verificationStatus := "verified",
          faceData := none }
        .terminated (some "cheating") 6).1 = 200 ∧
    (updateSessionStatus
        { sessionId := "s7w", exam := 1, student := 7, status := .active,
          startTime := 0, endTime := none, faceVerifications := [],
          violations := [], isTerminated := false, terminationReason := none,
          finalReport := none }
        { userId := 9, role := "invigilator", verificationStatus := "verified",
          faceData := none }
        .terminated (some "cheating") 6).2.isTerminated = true ∧
    (updateSessionStatus
        { sessionId := "s7w", exam := 1, student := 7, status := .active,
          startTime := 0, endTime := none, faceVerifications := [],
          violations := [], isTerminated := false, terminationReason := none,
          finalReport := none }
        { userId := 9, role := "invigilator", verificationStatus := "verified",
          faceData := none }
        .terminated (some "cheating") 6).2.endTime = some 6 ∧
    (updateSessionStatus
        { sessionId := "s7w", exam := 1, student := 7, status := .active,
          startTime := 0, endTime := none, faceVerifications := [],
          violations := [], isTerminated := false, terminationReason := none,
          finalReport := none }
        { userId := 9, role := "invigilator", verificationStatus := "verified",
          faceData := none }
        .terminated (some "cheating") 6).2.terminationReason =
      some (reasonOrDefault (some "cheating")) ∧
    (∀ r : String, r ≠ "" → (some "cheating" : Option String) = some r →
      (updateSessionStatus
          { sessionId := "s7w", exam := 1, student := 7, status := .active,
            startTime := 0, endTime := none, faceVerifications := [],
            violations := [], isTerminated := false, terminationReason := none,
            finalReport := none }
          { userId := 9, role := "invigilator", verificationStatus := "verified",
            faceData := none }
          .terminated (some "cheating") 6).2.terminationReason = some r) ∧
    (updateSessionStatus
        { sessionId := "s7w", exam := 1, student := 7, status := .active,
          startTime := 0, endTime := none, faceVerifications := [],
          violations := [], isTerminated := false, terminationReason := none,
          finalReport := none }
        { userId := 9, role := "invigilator", verificationStatus := "verified",
          faceData := none }
        .completed (some "cheating") 6).2.endTime = some 6 :=
  terminate_sets_flags_and_reason _ _ (some "cheating") 6 (Or.inr (Or.inr rfl))

/-- C5: attendance marks are monotonic: the bulk update moves a record
only from `Absent` to `Present` (setting `markedAt`); a record already
`Present` is completely unchanged (no error, `markedAt` kept), including
under a full reconciliation pass that matches the same student again. -/
theorem attendance_mark_monotonic (ids : List Nat) (now : Nat)
    (r : AttendanceRecord) :
    (r.attendanceMark = .Present → markPresent ids now r = r) ∧
    (markPresent ids now r = r ∨
      (r.attendanceMark = .Absent ∧
        markPresent ids now r =
          { r with attendanceMark := .Present, markedAt := some now })) ∧
    (r.attendanceMark = .Present → ∀ records labels,
      (verifyAttendanceWithAI (r :: records) labels now).head? = some r) := by
  have hbranch : (markPresent ids now r = r ∨
      (r.attendanceMark = .Absent ∧
        markPresent ids now r =
          { r with attendanceMark := .Present, markedAt := some now })) := by
    unfold markPresent
    rcases h : (r.attendanceMark == Mark.Absent && ids.contains r.student) with _ | _
    · exact Or.inl rfl
    · rw [Bool.and_eq_true] at h
      exact Or.inr ⟨by simpa using h.1, rfl⟩
  have hpres : r.attendanceMark = .Present → ∀ ids2 : List Nat,
      markPresent ids2 now r = r := by
    intro hp ids2
    unfold markPresent
    rw [hp]
    rfl
  refine ⟨fun hp => hpres hp ids, hbranch, fun hp records labels => ?_⟩
  unfold verifyAttendanceWithAI
  rw [List.map_cons, hpres hp _]
  rfl

/-- Witness for C5: a `Present` record with its original `markedAt` is
untouched even though its student id is in the present list. -/
theorem attendance_mark_monotonic_witness :
    (( { student := 3, firstName := "Ann", lastName := "Lee",
         attendanceMark := .Present, markedAt := some 2 } :
          AttendanceRecord).attendanceMark = .Present →
      markPresent [3] 9
        { student := 3, firstName := "Ann", lastName := "Lee",
          attendanceMark := .Present, markedAt := some 2 } =
        { student := 3, firstName := "Ann", lastName := "Lee",
          attendanceMark := .Present, markedAt := some 2 }) ∧
    (markPresent [3] 9
        { student := 3, firstName := "Ann", lastName := "Lee",
          attendanceMark := .Present, markedAt := some 2 } =
        { student := 3, firstName := "Ann", lastName := "Lee",
          attendanceMark := .Present, markedAt := some 2 } ∨
      (( { student := 3, firstName := "Ann", lastName := "Lee",
           attendanceMark := .Present, markedAt := some 2 } :
            AttendanceRecord).attendanceMark = .Absent ∧
        markPresent [3] 9
          { student := 3, firstName := "Ann", lastName := "Lee",
            attendanceMark := .Present, markedAt := some 2 } =
          { student := 3, firstName := "Ann", lastName := "Lee",
            attendanceMark := .Present, markedAt := some 9 })) ∧
    (( { student := 3, firstName := "Ann", lastName := "Lee",
         attendanceMark := .Present, markedAt := some 2 } :
          AttendanceRecord).attendanceMark = .Present →
      ∀ records labels,
        (verifyAttendanceWithAI
          ({ student := 3, firstName := "Ann", lastName := "Lee",
             attendanceMark := .Present, markedAt := some 2 } :: records)
          labels 9).head? =
        some { student := 3, firstName := "Ann", lastName := "Lee",
               attendanceMark := .Present, markedAt := some 2 }) :=
  attendance_mark_monotonic [3] 9
    { student := 3, firstName := "Ann", lastName := "Lee",
      attendanceMark := .Present, markedAt := some 2 }

/-- C8: in the length-gated hybrid variant, exact normalized equality
matches with no length requirement, while a strict containment match
(the two normalizations unequal) succeeds exactly when the corresponding
containment holds and the contained side's string length exceeds 2. -/
theorem hybrid_containment_length_gate (aiName fullName : String) :
    (normChars aiName = normChars fullName →
      hybridMatches aiName fullName = true) ∧
    (normChars aiName ≠ normChars fullName →
      (hybridMatches aiName fullName = true ↔
        (containsChars (normChars fullName) (normChars aiName) = true ∧
            aiName.data.length > 2) ∨
        (containsChars (normChars aiName) (normChars fullName) = true ∧
            fullName.data.length > 2))) := by
  unfold hybridMatches
  constructor
  · intro h
    rw [h]
    simp
  · intro hne
    have hbeq : (normChars fullName == normChars aiName) = false := by
      rw [beq_eq_false_iff_ne]
      exact fun hh => hne hh.symm
    rw [hbeq]
    simp only [Bool.false_or, Bool.or_eq_true, Bool.and_eq_true,
      decide_eq_true_eq]

/-- Witness for C8: `"jane"` matches `"  JANE  "` by normalized equality
regardless of length, and the gated containment characterization holds
for `"ane"` against `"jane doe"`. -/
theorem hybrid_containment_length_gate_witness :
    hybridMatches "jane" "  JANE  " = true ∧
    (hybridMatches "ane" "jane doe" = true ↔
      (containsChars (normChars "jane doe") (normChars "ane") = true ∧
          ("ane").data.length > 2) ∨
      (containsChars (normChars "ane") (normChars "jane doe") = true ∧
          ("jane doe").data.length > 2)) :=
  ⟨(hybrid_containment_length_gate "jane" "  JANE  ").1 (by decide),
   (hybrid_containment_length_gate "ane" "jane doe").2 (by decide)⟩

/-- C9: joining an ongoing exam that requires face verification fails
with a 400 client error — and creates no monitoring session — whenever
the enrolled student's `verificationStatus` is not `"verified"`; when
`faceVerificationRequired` is false the student's `verificationStatus`
is never consulted (the outcome is independent of it). -/
theorem joinExam_face_verification_gate (exam : Exam) (user : User)
    (db : List Session) (freshId : String) (now : Nat)
    (hreq : exam.examSettings.faceVerificationRequired = true)
    (hnv : user.verificationStatus ≠ "verified")
    (hon : exam.status = .ongoing)
    (henr : exam.enrolledStudents.contains user.userId = true) :
    joinExam (some exam) user db freshId now = ⟨400, false, db, none⟩ ∧
    (∀ e2 : Exam, e2.examSettings.faceVerificationRequired = false →
      ∀ v1 v2 : String,
        joinExam (some e2) { user with verificationStatus := v1 }
            db freshId now =
          joinExam (some e2) { user with verificationStatus := v2 }
            db freshId now) := by
  constructor
  · simp only [joinExam]
    rw [if_neg (not_not_intro henr), if_neg (not_not_intro hon),
      if_pos (by rw [hreq, Bool.true_and]; exact bne_iff_ne.mpr hnv)]
  · intro e2 hfv v1 v2
    simp only [joinExam]
    rw [hfv]
    simp only [Bool.false_and]

/-- Witness for C9: a pending student is rejected from a
face-verification-required ongoing exam with HTTP 400 and no session
creation, and with the requirement off the status is irrelevant. -/
theorem joinExam_face_verification_gate_witness :
    joinExam
        (some { examId := 4, examCode := "EX4", status := .ongoing,
                enrolledStudents := [7],
                examSettings := { faceVerificationRequired := true,
                                  tabSwitchLimit := 3 } })
        { userId := 7, role := "student", verificationStatus := "pending",
          faceData := none }
        [] "fresh-1" 3 = ⟨400, false, [], none⟩ ∧
    (∀ e2 : Exam, e2.examSettings.faceVerificationRequired = false →
      ∀ v1 v2 : String,
        joinExam (some e2)
            { userId := 7, role := "student",
              verificationStatus := v1, faceData := none } [] "fresh-1" 3 =
          joinExam (some e2)
            { userId := 7, role := "student",
              verificationStatus := v2, faceData := none } [] "fresh-1" 3) :=
  joinExam_face_verification_gate _ _ [] "fresh-1" 3
    (by decide) (by decide) rfl (by decide)

/-- C10: when detection reports a single face but the student has no
stored face descriptor, `verifyFace` appends a `no_reference`
verification record with confidence 0, appends no violation, and reports
success (the persisted session differs from the original only by the new
verification ledger entry). -/
theorem verifyFace_no_reference (s : Session) (user : User)
    (det : FaceDetection) (cmp : FaceComparison) (image : String) (now : Nat)
    (hown : s.student = user.userId)
    (hlive : s.status.isTerminal = false)
    (hface : det.hasFace = true)
    (hmulti : det.multipleFaces = false)
    (hnodata : user.faceData = none) :
    verifyFace s user det cmp image now =
      ⟨200, true,
        { s with faceVerifications := s.faceVerifications ++
            [⟨now, .no_reference, 0, truncEvidence image⟩] },
        .no_reference, 0⟩ := by
  unfold verifyFace
  rw [if_neg (by rw [hown]; exact fun h => h rfl), hface, hmulti, hnodata]
  show (match Session.addFaceVerification s _ with
    | .error _ => _
    | .ok s3 => _ : VerifyFaceResult) = _
  unfold Session.addFaceVerification
  rw [hlive]
  rfl

/-- Witness for C10: a live session of a student with no stored
descriptor gains exactly the `no_reference` ledger entry. -/
theorem verifyFace_no_reference_witness :
    verifyFace
        { sessionId := "s10", exam := 1, student := 7, status := .active,
          startTime := 0, endTime := none, faceVerifications := [],
          violations := [], isTerminated := false, terminationReason := none,
          finalReport := none }
        { userId := 7, role := "student", verificationStatus := "verified",
          faceData := none }
        { faceCount := 1, hasFace := true, multipleFaces := false }
        { confidence := 9/10, isMatch := true }
        "imagedata" 6 =
      ⟨200, true,
        { sessionId := "s10", exam := 1, student := 7, status := .active,
          startTime := 0, endTime := none,
          faceVerifications :=
            [⟨6, .no_reference, 0, truncEvidence "imagedata"⟩],
          violations := [], isTerminated := false, terminationReason := none,
          finalReport := none },
        .no_reference, 0⟩ :=
  verifyFace_no_reference _ _ _ _ "imagedata" 6 rfl rfl rfl rfl rfl

/-- A freshly created session satisfies the duplicate-session lookup
predicate, so looking it up after appending it finds it. -/
theorem findExistingSession_append_new (db : List Session)
    (examId userId : Nat) (freshId : String) (now : Nat)
    (hnone : findExistingSession db examId userId = none) :
    findExistingSession (db ++ [newSession examId userId freshId now])
        examId userId =
      some (newSession examId userId freshId now) := by
  unfold findExistingSession at hnone ⊢
  rw [List.find?_append, hnone]
  show List.find? _ _ = _
  rw [List.find?_cons_of_pos]
  simp [newSession]

/-- C3: StartOrResume is idempotent.  With the exam ongoing and the
student enrolled: when an `active`/`paused` session already exists both
`startMonitoringSession` and `joinExam` return it unchanged as a success
with the database untouched; when none exists, `startMonitoringSession`
creates exactly one new session (status `active`, empty ledgers, the
fresh id) and a repeated call then returns that same session — same
`sessionId` — without creating another. -/
theorem startOrResume_idempotent (exam : Exam) (user : User)
    (db : List Session) (freshId : String) (now : Nat)
    (hon : exam.status = .ongoing)
    (henr : exam.enrolledStudents.contains user.userId = true) :
    (∀ s, findExistingSession db exam.examId user.userId = some s →
      startMonitoringSession (some exam) user.userId db freshId now =
        ⟨200, true, db, some s⟩ ∧
      (user.verificationStatus = "verified" →
        joinExam (some exam) user db freshId now = ⟨200, true, db, some s⟩)) ∧
    (findExistingSession db exam.examId user.userId = none →
      startMonitoringSession (some exam) user.userId db freshId now =
        ⟨201, true, db ++ [newSession exam.examId user.userId freshId now],
          some (newSession exam.examId user.userId freshId now)⟩ ∧
      (∀ freshId2 now2,
        startMonitoringSession (some exam) user.userId
            (db ++ [newSession exam.examId user.userId freshId now])
            freshId2 now2 =
          ⟨200, true,
            db ++ [newSession exam.examId user.userId freshId now],
            some (newSession exam.examId user.userId freshId now)⟩)) := by
  constructor
  · intro s hsome
    constructor
    · simp only [startMonitoringSession]
      rw [if_neg (not_not_intro hon), if_neg (not_not_intro henr), hsome]
    · intro hver
      have hgate : (exam.examSettings.faceVerificationRequired &&
          user.verificationStatus != "verified") = false := by
        rw [hver, bne_self_eq_false, Bool.and_false]
      simp only [joinExam]
      rw [if_neg (not_not_intro henr), if_neg (not_not_intro hon),
        if_neg (by rw [hgate]; exact Bool.false_ne_true), hsome]
  · intro hnone
    constructor
    · simp only [startMonitoringSession]
      rw [if_neg (not_not_intro hon), if_neg (not_not_intro henr), hnone]
    · intro freshId2 now2
      simp only [startMonitoringSession]
      rw [if_neg (not_not_intro hon), if_neg (not_not_intro henr),
        findExistingSession_append_new db exam.examId user.userId
          freshId now hnone]

/-- Witness for C3: with an empty session store a first call creates the
session and a second call returns the very same session unchanged. -/
theorem startOrResume_idempotent_witness :
    (∀ s, findExistingSession [] 4 7 = some s →
      startMonitoringSession
          (some { examId := 4, examCode := "EX4", status := .ongoing,
                  enrolledStudents := [7],
                  examSettings := { faceVerificationRequired := false,
                                    tabSwitchLimit := 3 } })
          7 [] "fresh-1" 2 = ⟨200, true, [], some s⟩ ∧
      (("verified" : String) = "verified" →
        joinExam
            (some { examId := 4, examCode := "EX4", status := .ongoing,
                    enrolledStudents := [7],
                    examSettings := { faceVerificationRequired := false,
                                      tabSwitchLimit := 3 } })
            { userId := 7, role := "student",
              verificationStatus := "verified", faceData := none }
            [] "fresh-1" 2 = ⟨200, true, [], some s⟩)) ∧
    (findExistingSession [] 4 7 = none →
      startMonitoringSession
          (some { examId := 4, examCode := "EX4", status := .ongoing,
                  enrolledStudents := [7],
                  examSettings := { faceVerificationRequired := false,
                                    tabSwitchLimit := 3 } })
          7 [] "fresh-1" 2 =
        ⟨201, true, [newSession 4 7 "fresh-1" 2],
          some (newSession 4 7 "fresh-1" 2)⟩ ∧
      (∀ freshId2 now2,
        startMonitoringSession
            (some { examId := 4, examCode := "EX4", status := .ongoing,
                    enrolledStudents := [7],
                    examSettings := { faceVerificationRequired := false,
                                      tabSwitchLimit := 3 } })
            7 ([] ++ [newSession 4 7 "fresh-1" 2]) freshId2 now2 =
          ⟨200, true, [] ++ [newSession 4 7 "fresh-1" 2],
            some (newSession 4 7 "fresh-1" 2)⟩)) := by
  have h := startOrResume_idempotent
    { examId := 4, examCode := "EX4", status := .ongoing,
      enrolledStudents := [7],
      examSettings := { faceVerificationRequired := false,
                        tabSwitchLimit := 3 } }
    { userId := 7, role := "student", verificationStatus := "verified",
      faceData := none }
    [] "fresh-1" 2 rfl (by decide)
  exact ⟨h.1, fun hn => by simpa using h.2 hn⟩

/-- C4: reconciliation yields exactly one verdict per reported label
(`verdictOf` is a function): the label is matched to the first roster
record, in iteration order, satisfying the normalized
equality/containment test; when no record satisfies it the verdict is
`NotFound` and the label changes no attendance record (dropping it from a
batch changes nothing); and against the roster
`["Jane Doe", "Jane Doe Smith"]` the label `"jane doe"` matches
`"Jane Doe"`, not `"Jane Doe Smith"`. -/
theorem reconcile_first_match (records : List AttendanceRecord)
    (label : String) (now : Nat) :
    (∀ pre r post, records = pre ++ r :: post →
      (∀ r2 ∈ pre, nameMatches label (fullNameOf r2) = false) →
      nameMatches label (fullNameOf r) = true →
      verdictOf records label = .matched (fullNameOf r)) ∧
    (verdictOf records label = .notFound ↔
      ∀ r ∈ records, nameMatches label (fullNameOf r) = false) ∧
    (verdictOf records label = .notFound →
      ∀ labels, verifyAttendanceWithAI records (label :: labels) now =
        verifyAttendanceWithAI records labels now) ∧
    (verdictOf
        [{ student := 1, firstName := "Jane", lastName := "Doe",
           attendanceMark := .Absent, markedAt := none },
         { student := 2, firstName := "Jane", lastName := "Doe Smith",
           attendanceMark := .Absent, markedAt := none }] "jane doe" =
      .matched "Jane Doe") := by
  have hiff : verdictOf records label = .notFound ↔
      reconcileLabel records label = none := by
    unfold verdictOf
    rcases h : reconcileLabel records label with _ | r
    · simp
    · simp
  refine ⟨?_, ?_, ?_, by decide⟩
  · rintro pre r post rfl hpre hr
    unfold verdictOf reconcileLabel
    rw [List.find?_append,
      List.find?_eq_none.mpr (fun x hx => by rw [hpre x hx]; exact Bool.false_ne_true),
      Option.none_or,
      List.find?_cons_of_pos (p := fun x => nameMatches label (fullNameOf x))
        post hr]
  · rw [hiff]
    unfold reconcileLabel
    rw [List.find?_eq_none]
    constructor
    · intro h r hr
      have := h r hr
      rcases hb : nameMatches label (fullNameOf r) with _ | _
      · rfl
      · exact absurd hb this
    · intro h r hr
      rw [h r hr]
      exact Bool.false_ne_true
  · rw [hiff]
    intro hnone labels
    unfold verifyAttendanceWithAI collectPresentIds
    rw [List.filterMap_cons, hnone]
    rfl

/-- Witness for C4: the scenario roster, with the first-match conjunct
instantiated at the split before `"Jane Doe"`. -/
theorem reconcile_first_match_witness :
    verdictOf
        [{ student := 1, firstName := "Jane", lastName := "Doe",
           attendanceMark := .Absent, markedAt := none },
         { student := 2, firstName := "Jane", lastName := "Doe Smith",
           attendanceMark := .Absent, markedAt := none }] "jane doe" =
      .matched (fullNameOf
        { student := 1, firstName := "Jane", lastName := "Doe",
          attendanceMark := .Absent, markedAt := none }) :=
  (reconcile_first_match
      [{ student := 1, firstName := "Jane", lastName := "Doe",
         attendanceMark := .Absent, markedAt := none },
       { student := 2, firstName := "Jane", lastName := "Doe Smith",
         attendanceMark := .Absent, markedAt := none }] "jane doe" 0).1
    []
    { student := 1, firstName := "Jane", lastName := "Doe",
      attendanceMark := .Absent, markedAt := none }
    [{ student := 2, firstName := "Jane", lastName := "Doe Smith",
       attendanceMark := .Absent, markedAt := none }]
    rfl (by intro r2 hr2; cases hr2) (by decide)

end ExamProctor